import Mathlib

/-!
Verification of the packet-relay core of an IBC implementation.

Shallow embedding of:
- `modules/src/core/ics26_routing/context.rs` (ModuleId, Module trait with
  default callbacks, RouterBuilder/Router),
- `modules/src/applications/ics20_fungible_token_transfer/msgs/transfer.rs`
  (MsgTransfer raw/domain codec),
- `crates/relayer-cli/src/commands/query/packet/pending_sends.rs`
  (pending-sends reconciliation command).

Rust machine strings are Lean `String`; Rust `u64`/`U256` values are `Nat`
(no arithmetic is performed on them here, so no overflow reduction is needed);
fallible conversions are `Except`.
-/

/- ===================== ModuleId (ics26_routing/context.rs) ===================== -/

/-- Error type for an invalid module identifier (source: `struct InvalidModuleId`). -/
structure InvalidModuleId where
deriving DecidableEq, Repr

/-- A module identifier wrapping its string (source: `struct ModuleId(String)`). -/
structure ModuleId where
  val : String
deriving DecidableEq, Repr

/-- Embedding of `ModuleId::new`: the source tests
`!s.trim().is_empty() && s.chars().all(char::is_alphanumeric)`.
A trimmed string is empty exactly when every character of the string is
whitespace, so `s.trim().is_empty()` is embedded as `s.data.all Char.isWhitespace`. -/
def ModuleId.new (s : String) : Except InvalidModuleId ModuleId :=
  if !(s.data.all Char.isWhitespace) && s.data.all Char.isAlphanum then
    Except.ok ⟨s⟩
  else
    Except.error ⟨⟩

/-- Embedding of `impl FromStr for ModuleId`, which delegates to `ModuleId::new`. -/
def ModuleId.fromStr (s : String) : Except InvalidModuleId ModuleId :=
  ModuleId.new s

/-- Embedding of `impl Display for ModuleId`: prints the wrapped string. -/
def ModuleId.toString (m : ModuleId) : String :=
  m.val

/-- The total order on ModuleId from `derive(Ord)`: lexicographic order on the
wrapped string. -/
def ModuleId.le (a b : ModuleId) : Prop :=
  a.val ≤ b.val

/-- An alphanumeric character is not whitespace. -/
theorem char_isWhitespace_isAlphanum_false (c : Char) (h : c.isWhitespace = true) :
    c.isAlphanum = false := by
  simp [Char.isWhitespace] at h
  rcases h with ((h | h) | h) | h <;> subst h <;> decide

/-- C7: `ModuleId::new` (and `from_str`) returns `Ok` exactly when the string is
non-empty and every character is alphanumeric; and ModuleId carries a total
order. -/
theorem moduleId_new_ok_iff (s : String) :
    ((∃ m : ModuleId, ModuleId.new s = Except.ok m) ↔
      (s ≠ "" ∧ ∀ c ∈ s.data, c.isAlphanum = true))
    ∧ ModuleId.fromStr s = ModuleId.new s
    ∧ (∀ a b : ModuleId, ModuleId.le a b ∨ ModuleId.le b a) := by
  refine ⟨?_, rfl, fun a b => le_total a.val b.val⟩
  unfold ModuleId.new
  by_cases hcond : (!(s.data.all Char.isWhitespace) && s.data.all Char.isAlphanum) = true
  · rw [if_pos hcond]
    simp only [Bool.and_eq_true, Bool.not_eq_true'] at hcond
    obtain ⟨hw, ha⟩ := hcond
    constructor
    · intro _
      refine ⟨?_, ?_⟩
      · intro hempty
        subst hempty
        simp [List.all_nil] at hw
      · intro c hc
        exact List.all_eq_true.mp ha c hc
    · intro _
      exact ⟨⟨s⟩, rfl⟩
  · rw [if_neg hcond]
    constructor
    · intro ⟨m, hm⟩
      exact absurd hm (by simp)
    · intro ⟨hne, halnum⟩
      exfalso
      apply hcond
      simp only [Bool.and_eq_true, Bool.not_eq_true']
      refine ⟨?_, List.all_eq_true.mpr halnum⟩
      rw [Bool.eq_false_iff]
      intro hallws
      have hdata : s.data ≠ [] := fun hd => hne (String.ext (by simpa using hd))
      obtain ⟨c, hcmem⟩ := List.exists_mem_of_ne_nil s.data hdata
      have hcal : c.isAlphanum = true := halnum c hcmem
      have hws : c.isWhitespace = true := List.all_eq_true.mp hallws c hcmem
      rw [char_isWhitespace_isAlphanum_false c hws] at hcal
      exact Bool.false_ne_true hcal

/-- Witness for C7 at the concrete string "transfer". -/
theorem moduleId_new_ok_iff_witness :
    ModuleId.fromStr "transfer" = ModuleId.new "transfer" :=
  (moduleId_new_ok_iff "transfer").2.1

/-- C10: converting a constructible ModuleId to its display string and parsing it
back returns the same value. -/
theorem moduleId_display_fromStr_roundtrip (s : String) (m : ModuleId)
    (h : ModuleId.new s = Except.ok m) :
    ModuleId.fromStr (ModuleId.toString m) = Except.ok m := by
  unfold ModuleId.new at h
  by_cases hcond : (!(s.data.all Char.isWhitespace) && s.data.all Char.isAlphanum) = true
  · rw [if_pos hcond] at h
    injection h with h
    subst h
    unfold ModuleId.fromStr ModuleId.toString ModuleId.new
    rw [if_pos hcond]
  · rw [if_neg hcond] at h
    exact absurd h (by simp)

/-- Witness for C10 at the ModuleId built from "transfer". -/
theorem moduleId_display_fromStr_roundtrip_witness :
    ModuleId.fromStr (ModuleId.toString ⟨"transfer"⟩) = Except.ok ⟨"transfer"⟩ :=
  moduleId_display_fromStr_roundtrip "transfer" ⟨"transfer"⟩ rfl

/- ========== Transfer message field codecs (collaborators of transfer.rs) ========== -/

/-- Modelled from the spec: "Channel/Connection/Port identifiers: opaque
validated strings" (the identifier parse/Display implementations live in
ics24_host, which is not under src/). Validation of the opaque string is
non-emptiness. -/
def identifierValid (s : String) : Bool :=
  !s.isEmpty

/-- A port identifier (opaque validated string). -/
structure PortId where
  val : String
deriving DecidableEq, Repr

/-- Modelled from the spec: parsing a port identifier accepts exactly the
validated strings and returns them unchanged. -/
def PortId.parse (s : String) : Except String PortId :=
  if identifierValid s then Except.ok ⟨s⟩ else Except.error "invalid port id"

/-- Display of a port identifier: the underlying string. -/
def PortId.toString (p : PortId) : String :=
  p.val

/-- A channel identifier (opaque validated string). -/
structure ChannelId where
  val : String
deriving DecidableEq, Repr

/-- Modelled from the spec: parsing a channel identifier accepts exactly the
validated strings and returns them unchanged. -/
def ChannelId.parse (s : String) : Except String ChannelId :=
  if identifierValid s then Except.ok ⟨s⟩ else Except.error "invalid channel id"

/-- Display of a channel identifier: the underlying string. -/
def ChannelId.toString (c : ChannelId) : String :=
  c.val

/-- A signer address (opaque string, as used for sender/receiver). -/
structure Signer where
  val : String
deriving DecidableEq, Repr

/-- Modelled from the spec: sender/receiver addresses are opaque validated
strings (signer code is not under src/); validation is non-emptiness. -/
def Signer.parse (s : String) : Except String Signer :=
  if identifierValid s then Except.ok ⟨s⟩ else Except.error "invalid signer"

/-- Display of a signer: the underlying string. -/
def Signer.toString (s : Signer) : String :=
  s.val

/-- The domain token of a transfer: denomination plus 256-bit amount
(amount as `Nat`, bounded below 2^256 by validation). -/
structure IbcCoin where
  denom : String
  amount : Nat
deriving DecidableEq, Repr

/-- Wire form of a token. -/
structure RawCoin where
  denom : String
  amount : Nat
deriving DecidableEq, Repr

/-- Validity of a domain token: non-empty denomination and an amount that fits
the 256-bit amount type. -/
def IbcCoin.valid (c : IbcCoin) : Bool :=
  !c.denom.isEmpty && decide (c.amount < 2 ^ 256)

/-- Modelled from the spec: the token codec rejects an "invalid token amount"
or denomination (the coin conversion code is not under src/); a valid raw coin
decodes to the identical domain coin. -/
def IbcCoin.tryFromRaw (r : RawCoin) : Except String IbcCoin :=
  if !r.denom.isEmpty && decide (r.amount < 2 ^ 256) then
    Except.ok ⟨r.denom, r.amount⟩
  else
    Except.error "invalid token"

/-- Encoding of a token to its wire form. -/
def IbcCoin.toRaw (c : IbcCoin) : RawCoin :=
  ⟨c.denom, c.amount⟩

/-- A block height: revision number plus revision height. The timeout is
disabled when the height is zero. -/
structure Height where
  revisionNumber : Nat
  revisionHeight : Nat
deriving DecidableEq, Repr

/-- Wire form of a height. -/
structure RawHeight where
  revisionNumber : Nat
  revisionHeight : Nat
deriving DecidableEq, Repr

/-- The zero (disabled-timeout) height, `Height::zero()`. -/
def Height.zero : Height :=
  ⟨0, 0⟩

/-- Modelled from the spec: the wire mapping for heights is bijective and must
represent the disabled (zero) height; decoding a raw height is total (the
height conversion code is not under src/). -/
def Height.tryFromRaw (r : RawHeight) : Except String Height :=
  Except.ok ⟨r.revisionNumber, r.revisionHeight⟩

/-- Encoding of a height to its wire form. -/
def Height.toRaw (h : Height) : RawHeight :=
  ⟨h.revisionNumber, h.revisionHeight⟩

/-- A timestamp in nanoseconds; `none` means no timestamp (disabled timeout). -/
structure Timestamp where
  time : Option Nat
deriving DecidableEq, Repr

/-- Modelled from the spec: a wire timestamp of zero nanoseconds denotes the
disabled timeout; a non-zero value carries the time (`Timestamp::from_nanoseconds`
is not under src/). -/
def Timestamp.fromNanoseconds (n : Nat) : Except String Timestamp :=
  Except.ok ⟨if n = 0 then none else some n⟩

/-- Embedding of `Timestamp::nanoseconds`: the stored time, or 0 when disabled. -/
def Timestamp.nanoseconds (t : Timestamp) : Nat :=
  t.time.getD 0

/-- A constructible timestamp never stores an explicit time of zero (zero is
the disabled representation). -/
def Timestamp.valid (t : Timestamp) : Bool :=
  t.time != some 0

/- ============ MsgTransfer codec (ics20 msgs/transfer.rs) ============ -/

/-- Errors of the transfer-message codec (source: ics20 `Error` constructors
used by `TryFrom<RawMsgTransfer>`). -/
inductive TransferError where
  | invalidPacketTimeoutTimestamp (n : Nat)
  | invalidPacketTimeoutHeight (msg : String)
  | invalidToken
  | invalidPortId (s : String)
  | invalidChannelId (s : String)
  | signerError (msg : String)
deriving DecidableEq, Repr

/-- Domain transfer message (source: `struct MsgTransfer`). -/
structure MsgTransfer where
  sourcePort : PortId
  sourceChannel : ChannelId
  token : IbcCoin
  sender : Signer
  receiver : Signer
  timeoutHeight : Height
  timeoutTimestamp : Timestamp
deriving DecidableEq, Repr

/-- Wire transfer message (source: `RawMsgTransfer` from ibc-proto). -/
structure RawMsgTransfer where
  sourcePort : String
  sourceChannel : String
  token : Option RawCoin
  sender : String
  receiver : String
  timeoutHeight : Option RawHeight
  timeoutTimestamp : Nat
deriving DecidableEq, Repr

/-- Decoding step for the timeout timestamp (transfer.rs lines 57-58). -/
def decodeTimeoutTimestamp (n : Nat) : Except TransferError Timestamp :=
  match Timestamp.fromNanoseconds n with
  | Except.ok t => Except.ok t
  | Except.error _ => Except.error (TransferError.invalidPacketTimeoutTimestamp n)

/-- Decoding step for the timeout height (transfer.rs lines 60-65): an absent
raw height becomes `Height::zero()`. -/
def decodeTimeoutHeight (o : Option RawHeight) : Except TransferError Height :=
  match o with
  | none => Except.ok Height.zero
  | some rawHeight =>
    match Height.tryFromRaw rawHeight with
    | Except.ok h => Except.ok h
    | Except.error e => Except.error (TransferError.invalidPacketTimeoutHeight e)

/-- Decoding step for the token (transfer.rs line 67): an absent token is an
error. -/
def decodeToken (o : Option RawCoin) : Except TransferError IbcCoin :=
  match o with
  | none => Except.error TransferError.invalidToken
  | some rawCoin =>
    match IbcCoin.tryFromRaw rawCoin with
    | Except.ok c => Except.ok c
    | Except.error _ => Except.error TransferError.invalidToken

/-- Decoding step for the source port (transfer.rs lines 70-73). -/
def decodeSourcePort (s : String) : Except TransferError PortId :=
  match PortId.parse s with
  | Except.ok p => Except.ok p
  | Except.error _ => Except.error (TransferError.invalidPortId s)

/-- Decoding step for the source channel (transfer.rs lines 74-77). -/
def decodeSourceChannel (s : String) : Except TransferError ChannelId :=
  match ChannelId.parse s with
  | Except.ok c => Except.ok c
  | Except.error _ => Except.error (TransferError.invalidChannelId s)

/-- Decoding step for a signer field (transfer.rs lines 79-80). -/
def decodeSigner (s : String) : Except TransferError Signer :=
  match Signer.parse s with
  | Except.ok sg => Except.ok sg
  | Except.error e => Except.error (TransferError.signerError e)

/-- Embedding of `impl TryFrom<RawMsgTransfer> for MsgTransfer` (transfer.rs
lines 53-85). -/
def MsgTransfer.tryFromRaw (raw : RawMsgTransfer) : Except TransferError MsgTransfer := do
  let timeoutTimestamp ← decodeTimeoutTimestamp raw.timeoutTimestamp
  let timeoutHeight ← decodeTimeoutHeight raw.timeoutHeight
  let token ← decodeToken raw.token
  let sourcePort ← decodeSourcePort raw.sourcePort
  let sourceChannel ← decodeSourceChannel raw.sourceChannel
  let sender ← decodeSigner raw.sender
  let receiver ← decodeSigner raw.receiver
  pure { sourcePort := sourcePort, sourceChannel := sourceChannel, token := token,
         sender := sender, receiver := receiver, timeoutHeight := timeoutHeight,
         timeoutTimestamp := timeoutTimestamp }

/-- Embedding of `impl From<MsgTransfer> for RawMsgTransfer` (transfer.rs
lines 87-99). -/
def MsgTransfer.toRaw (m : MsgTransfer) : RawMsgTransfer :=
  { sourcePort := m.sourcePort.toString
    sourceChannel := m.sourceChannel.toString
    token := some m.token.toRaw
    sender := m.sender.toString
    receiver := m.receiver.toString
    timeoutHeight := some m.timeoutHeight.toRaw
    timeoutTimestamp := m.timeoutTimestamp.nanoseconds }

/-- A valid domain transfer message: all fields pass their validation. -/
def MsgTransfer.valid (m : MsgTransfer) : Bool :=
  identifierValid m.sourcePort.val && identifierValid m.sourceChannel.val &&
    m.token.valid && identifierValid m.sender.val && identifierValid m.receiver.val &&
    m.timeoutTimestamp.valid

/-- Bind of a successful Except computation reduces to the continuation. -/
theorem except_bind_ok {ε α β : Type} (a : α) (f : α → Except ε β) :
    (Except.ok a : Except ε α) >>= f = f a :=
  rfl

/-- Decoding a re-encoded valid timestamp returns it unchanged. -/
theorem decodeTimeoutTimestamp_nanoseconds (t : Timestamp) (h : t.valid = true) :
    decodeTimeoutTimestamp t.nanoseconds = Except.ok t := by
  obtain ⟨time⟩ := t
  cases time with
  | none => rfl
  | some k =>
    simp only [Timestamp.valid, bne_iff_ne, ne_eq, Option.some.injEq] at h
    simp [decodeTimeoutTimestamp, Timestamp.fromNanoseconds, Timestamp.nanoseconds,
      Option.getD, h]

/-- Decoding a re-encoded height returns it unchanged. -/
theorem decodeTimeoutHeight_toRaw (h : Height) :
    decodeTimeoutHeight (some h.toRaw) = Except.ok h :=
  rfl

/-- Decoding a re-encoded valid token returns it unchanged. -/
theorem decodeToken_toRaw (c : IbcCoin) (h : c.valid = true) :
    decodeToken (some c.toRaw) = Except.ok c := by
  obtain ⟨denom, amount⟩ := c
  simp only [IbcCoin.valid] at h
  simp only [decodeToken, IbcCoin.toRaw, IbcCoin.tryFromRaw]
  rw [if_pos h]

/-- Decoding a displayed valid port identifier returns it unchanged. -/
theorem decodeSourcePort_toString (p : PortId) (h : identifierValid p.val = true) :
    decodeSourcePort p.toString = Except.ok p := by
  simp [decodeSourcePort, PortId.parse, PortId.toString, h]

/-- Decoding a displayed valid channel identifier returns it unchanged. -/
theorem decodeSourceChannel_toString (c : ChannelId) (h : identifierValid c.val = true) :
    decodeSourceChannel c.toString = Except.ok c := by
  simp [decodeSourceChannel, ChannelId.parse, ChannelId.toString, h]

/-- Decoding a displayed valid signer returns it unchanged. -/
theorem decodeSigner_toString (s : Signer) (h : identifierValid s.val = true) :
    decodeSigner s.toString = Except.ok s := by
  simp [decodeSigner, Signer.parse, Signer.toString, h]

/-- C1: decoding the wire encoding of a valid transfer message yields the
message again: `MsgTransfer::try_from(RawMsgTransfer::from(m)) == Ok(m)`. -/
theorem msgTransfer_roundtrip (m : MsgTransfer) (h : m.valid = true) :
    MsgTransfer.tryFromRaw (MsgTransfer.toRaw m) = Except.ok m := by
  simp only [MsgTransfer.valid, Bool.and_eq_true] at h
  obtain ⟨⟨⟨⟨⟨hport, hchan⟩, htok⟩, hsend⟩, hrecv⟩, hts⟩ := h
  simp only [MsgTransfer.tryFromRaw, MsgTransfer.toRaw,
    decodeTimeoutTimestamp_nanoseconds _ hts,
    decodeTimeoutHeight_toRaw,
    decodeToken_toRaw _ htok,
    decodeSourcePort_toString _ hport,
    decodeSourceChannel_toString _ hchan,
    decodeSigner_toString _ hsend,
    decodeSigner_toString _ hrecv,
    except_bind_ok]
  rfl

/-- Witness for C1 at a concrete message with the timeout height set to zero
(disabled) and a non-zero timeout timestamp. -/
theorem msgTransfer_roundtrip_witness :
    MsgTransfer.tryFromRaw
        (MsgTransfer.toRaw
          ⟨⟨"transfer"⟩, ⟨"channel-0"⟩, ⟨"uatom", 10⟩, ⟨"alice"⟩, ⟨"bob"⟩,
            Height.zero, ⟨some 1000⟩⟩) =
      Except.ok
        ⟨⟨"transfer"⟩, ⟨"channel-0"⟩, ⟨"uatom", 10⟩, ⟨"alice"⟩, ⟨"bob"⟩,
          Height.zero, ⟨some 1000⟩⟩ :=
  msgTransfer_roundtrip _ (by decide)

/-- Bind of a failed Except computation is the failure. -/
theorem except_bind_error {ε α β : Type} (e : ε) (f : α → Except ε β) :
    (Except.error e : Except ε α) >>= f = Except.error e :=
  rfl

/-- The timestamp decoding step never fails. -/
theorem decodeTimeoutTimestamp_eq (n : Nat) :
    decodeTimeoutTimestamp n = Except.ok ⟨if n = 0 then none else some n⟩ :=
  rfl

/-- An absent raw timeout height decodes to the zero height. -/
theorem decodeTimeoutHeight_none :
    decodeTimeoutHeight none = Except.ok Height.zero :=
  rfl

/-- An explicit zero raw timeout height also decodes to the zero height. -/
theorem decodeTimeoutHeight_zero :
    decodeTimeoutHeight (some ⟨0, 0⟩) = Except.ok Height.zero :=
  rfl

/-- C9: raw decoding is not injective on the timeout-height field: a raw
message with an absent timeout height and the otherwise-identical raw message
with an explicit zero raw height decode to the same result, and any successful
decode of the absent-height message has the disabled `Height::zero()` timeout
height. -/
theorem msgTransfer_absent_height_decodes_as_zero (r : RawMsgTransfer)
    (h : r.timeoutHeight = none) :
    (MsgTransfer.tryFromRaw { r with timeoutHeight := some ⟨0, 0⟩ } =
      MsgTransfer.tryFromRaw r)
    ∧ (∀ m : MsgTransfer, MsgTransfer.tryFromRaw r = Except.ok m →
        m.timeoutHeight = Height.zero) := by
  obtain ⟨sp, sc, tok, snd, rcv, th, ts⟩ := r
  simp only at h
  subst h
  constructor
  · rfl
  · intro m hm
    simp only [MsgTransfer.tryFromRaw, decodeTimeoutTimestamp_eq, decodeTimeoutHeight_none,
      except_bind_ok] at hm
    cases htok : decodeToken tok with
    | error e => rw [htok, except_bind_error] at hm; exact Except.noConfusion hm
    | ok c =>
      rw [htok, except_bind_ok] at hm
      cases hsp : decodeSourcePort sp with
      | error e => rw [hsp, except_bind_error] at hm; exact Except.noConfusion hm
      | ok p =>
        rw [hsp, except_bind_ok] at hm
        cases hsc : decodeSourceChannel sc with
        | error e => rw [hsc, except_bind_error] at hm; exact Except.noConfusion hm
        | ok ch =>
          rw [hsc, except_bind_ok] at hm
          cases hsnd : decodeSigner snd with
          | error e => rw [hsnd, except_bind_error] at hm; exact Except.noConfusion hm
          | ok sg =>
            rw [hsnd, except_bind_ok] at hm
            cases hrcv : decodeSigner rcv with
            | error e => rw [hrcv, except_bind_error] at hm; exact Except.noConfusion hm
            | ok rg =>
              rw [hrcv, except_bind_ok] at hm
              have hm2 : Except.ok (ε := TransferError)
                  (MsgTransfer.mk p ch c sg rg Height.zero
                    ⟨if ts = 0 then none else some ts⟩) = Except.ok m := hm
              injection hm2 with hm3
              rw [← hm3]

/-- Witness for C9 at a concrete raw message with an absent timeout height. -/
theorem msgTransfer_absent_height_zero_witness :
    (MsgTransfer.tryFromRaw
        { RawMsgTransfer.mk "transfer" "channel-0" (some ⟨"uatom", 10⟩) "alice" "bob"
            none 5 with
          timeoutHeight := some ⟨0, 0⟩ } =
      MsgTransfer.tryFromRaw
        (RawMsgTransfer.mk "transfer" "channel-0" (some ⟨"uatom", 10⟩) "alice" "bob"
          none 5))
    ∧ (∀ m : MsgTransfer,
        MsgTransfer.tryFromRaw
            (RawMsgTransfer.mk "transfer" "channel-0" (some ⟨"uatom", 10⟩) "alice" "bob"
              none 5) = Except.ok m →
        m.timeoutHeight = Height.zero) :=
  msgTransfer_absent_height_decodes_as_zero _ rfl

/- ============ Module callbacks (ics26_routing/context.rs lines 80-177) ============ -/

/-- Channel ordering (ics04 `Order`; an opaque input to the callbacks). -/
inductive ChannelOrder where
  | noOrder
  | unordered
  | ordered
deriving DecidableEq, Repr

/-- A connection identifier (opaque validated string). -/
structure ConnectionId where
  val : String
deriving DecidableEq, Repr

/-- An opaque channel capability token (ics05; an opaque input to the
callbacks). -/
structure ChannelCapability where
  index : Nat
deriving DecidableEq, Repr

/-- A channel counterparty: its port plus its channel id, absent until the
handshake has progressed far enough. -/
structure ChannelCounterparty where
  portId : PortId
  channelId : Option ChannelId
deriving DecidableEq, Repr

/-- A channel version string (ics04 `Version`). -/
structure Version where
  val : String
deriving DecidableEq, Repr

/-- Modelled from the spec §3: a packet value — ports, channels, sequence,
opaque payload and the two timeout fields (packet.rs is not under src/). -/
structure Packet where
  sequence : Nat
  sourcePort : PortId
  sourceChannel : ChannelId
  destinationPort : PortId
  destinationChannel : ChannelId
  data : List UInt8
  timeoutHeight : Height
  timeoutTimestamp : Timestamp
deriving DecidableEq, Repr

/-- Embedding of the `Acknowledgement` trait object (context.rs lines 80-82):
a byte payload plus its success flag. -/
structure Acknowledgement where
  bytes : List UInt8
  success : Bool
deriving DecidableEq, Repr

/-- The generic acknowledgement bytes passed to on_acknowledgement_packet
(ics04 msgs). -/
structure GenericAcknowledgement where
  bytes : List UInt8
deriving DecidableEq, Repr

/-- Type-erased chain state mutated by a deferred write (`dyn Any` in the
source), modelled as opaque bytes. -/
structure AnyState where
  bytes : List UInt8

/-- Embedding of `type WriteFn = dyn FnOnce(&mut dyn Any)` (context.rs line 84):
a state transformer on the type-erased state. -/
def WriteFn : Type :=
  AnyState → AnyState

/-- Embedding of
`type DeferredWriteResult<T> = (Option<Box<T>>, Option<Box<WriteFn>>)`
(context.rs line 86): an optional typed result paired with an optional
deferred mutation. -/
def DeferredWriteResult (T : Type) : Type :=
  Option T × Option WriteFn

/-- An event emitted by a module callback (`ModuleEvent = IbcEvent`;
modelled as an opaque record, spec §3 "Event"). -/
structure ModuleEvent where
  tag : String
deriving DecidableEq, Repr

/-- Modelled from the spec: the output of a module callback — a result value
plus emitted events and log entries (`HandlerOutput` of handler.rs is not
under src/). -/
structure HandlerOutput (T : Type) (E : Type) where
  result : T
  log : List String
  events : List E

/-- Embedding of `type ModuleOutput<T> = HandlerOutput<T, ModuleEvent>`. -/
def ModuleOutput (T : Type) : Type :=
  HandlerOutput T ModuleEvent

/-- Embedding of `HandlerOutputBuilder::new().with_result(r)`: a success output
carrying `r` with no events and no log. -/
def buildResultOutput {T : Type} (r : T) : ModuleOutput T :=
  { result := r, log := [], events := [] }

/-- An error from a channel callback (ics04 `Error`, opaque). -/
structure ChannelError where
  msg : String
deriving DecidableEq, Repr

/-- Embedding of the `Module` trait (context.rs lines 93-177): one field per
lifecycle callback. Each default field value is the source's default body;
`onChanOpenTry` has no default and must be supplied by every implementation. -/
structure IbcModule where
  onChanOpenInit : ChannelOrder → List ConnectionId → PortId → ChannelId →
      ChannelCapability → ChannelCounterparty → Version →
      Except ChannelError (ModuleOutput Unit) :=
    fun _ _ _ _ _ _ _ => Except.ok (buildResultOutput ())
  onChanOpenTry : ChannelOrder → List ConnectionId → PortId → ChannelId →
      ChannelCapability → ChannelCounterparty → Version →
      Except ChannelError (ModuleOutput Version)
  onChanOpenAck : PortId → ChannelId → Version →
      Except ChannelError (ModuleOutput Unit) :=
    fun _ _ _ => Except.ok (buildResultOutput ())
  onChanOpenConfirm : PortId → ChannelId → Except ChannelError (ModuleOutput Unit) :=
    fun _ _ => Except.ok (buildResultOutput ())
  onChanCloseInit : PortId → ChannelId → Except ChannelError (ModuleOutput Unit) :=
    fun _ _ => Except.ok (buildResultOutput ())
  onChanCloseConfirm : PortId → ChannelId → Except ChannelError (ModuleOutput Unit) :=
    fun _ _ => Except.ok (buildResultOutput ())
  onRecvPacket : Packet → Signer → ModuleOutput (DeferredWriteResult Acknowledgement) :=
    fun _ _ => buildResultOutput (none, none)
  onAcknowledgementPacket : Packet → GenericAcknowledgement → Signer →
      Except ChannelError (ModuleOutput Unit) :=
    fun _ _ _ => Except.ok (buildResultOutput ())
  onTimeoutPacket : Packet → Signer → Except ChannelError (ModuleOutput Unit) :=
    fun _ _ => Except.ok (buildResultOutput ())

/-- C2: for every Module implementation, packet and relayer signer,
on_recv_packet returns a ModuleOutput whose result is always a pair of an
optional acknowledgement and an optional deferred write — there is no error
case — whereas on_acknowledgement_packet (like the other callbacks) returns
through an error channel with an Ok and an Err case. -/
theorem onRecvPacket_total (M : IbcModule) (p : Packet) (r : Signer) :
    (∃ (ack : Option Acknowledgement) (w : Option WriteFn),
      (M.onRecvPacket p r).result = (ack, w))
    ∧ (∀ a : GenericAcknowledgement,
        (∃ out, M.onAcknowledgementPacket p a r = Except.ok out) ∨
          (∃ e, M.onAcknowledgementPacket p a r = Except.error e)) := by
  constructor
  · exact ⟨(M.onRecvPacket p r).result.1, (M.onRecvPacket p r).result.2, rfl⟩
  · intro a
    cases hx : M.onAcknowledgementPacket p a r with
    | ok out => exact Or.inl ⟨out, rfl⟩
    | error e => exact Or.inr ⟨e, rfl⟩

/-- A Module implementation that supplies only the mandatory on_chan_open_try
callback and inherits every default body. -/
def IbcModule.mkDefault
    (tryCb : ChannelOrder → List ConnectionId → PortId → ChannelId →
      ChannelCapability → ChannelCounterparty → Version →
      Except ChannelError (ModuleOutput Version)) :
    IbcModule :=
  { onChanOpenTry := tryCb }

/-- C4: every default callback is a no-op success — Ok with a unit result, no
events and no log — the default on_recv_packet returns (None, None), and
on_chan_open_try is exactly the explicitly supplied implementation. -/
theorem module_default_callbacks
    (tryCb : ChannelOrder → List ConnectionId → PortId → ChannelId →
      ChannelCapability → ChannelCounterparty → Version →
      Except ChannelError (ModuleOutput Version))
    (ord : ChannelOrder) (hops : List ConnectionId) (port : PortId) (chan : ChannelId)
    (cap : ChannelCapability) (cp : ChannelCounterparty) (ver : Version)
    (p : Packet) (ack : GenericAcknowledgement) (rel : Signer) :
    (IbcModule.mkDefault tryCb).onChanOpenInit ord hops port chan cap cp ver =
        Except.ok { result := (), log := [], events := [] }
    ∧ (IbcModule.mkDefault tryCb).onChanOpenAck port chan ver =
        Except.ok { result := (), log := [], events := [] }
    ∧ (IbcModule.mkDefault tryCb).onChanOpenConfirm port chan =
        Except.ok { result := (), log := [], events := [] }
    ∧ (IbcModule.mkDefault tryCb).onChanCloseInit port chan =
        Except.ok { result := (), log := [], events := [] }
    ∧ (IbcModule.mkDefault tryCb).onChanCloseConfirm port chan =
        Except.ok { result := (), log := [], events := [] }
    ∧ (IbcModule.mkDefault tryCb).onRecvPacket p rel =
        { result := (none, none), log := [], events := [] }
    ∧ (IbcModule.mkDefault tryCb).onAcknowledgementPacket p ack rel =
        Except.ok { result := (), log := [], events := [] }
    ∧ (IbcModule.mkDefault tryCb).onTimeoutPacket p rel =
        Except.ok { result := (), log := [], events := [] }
    ∧ (IbcModule.mkDefault tryCb).onChanOpenTry = tryCb :=
  ⟨rfl, rfl, rfl, rfl, rfl, rfl, rfl, rfl, rfl⟩

/- ============ Router / RouterBuilder (ics26_routing/context.rs lines 179-211) ============ -/

/-- Modelled from the spec: builder state of the Router — the association list
of registered routes (context.rs specifies the RouterBuilder trait contract;
the concrete implementation is not under src/). -/
structure MockRouterBuilder where
  routes : List (ModuleId × IbcModule)

/-- Modelled from the spec: a built Router owning the final route map; its API
consists only of the lookup operations get_route_mut and has_route. -/
structure MockRouter where
  routes : List (ModuleId × IbcModule)

/-- Embedding of `RouterBuilder::add_route`: registers the module, returning an
error when a module is already registered against the ModuleId. -/
def MockRouterBuilder.addRoute (b : MockRouterBuilder) (mid : ModuleId) (m : IbcModule) :
    Except String MockRouterBuilder :=
  if b.routes.any (fun route => decide (route.1 = mid)) then
    Except.error "duplicate module_id"
  else
    Except.ok ⟨b.routes ++ [(mid, m)]⟩

/-- Embedding of `RouterBuilder::build`: consumes the builder into a Router. -/
def MockRouterBuilder.build (b : MockRouterBuilder) : MockRouter :=
  ⟨b.routes⟩

/-- Embedding of `Router::get_route_mut`: the module registered against the
ModuleId, when present. -/
def MockRouter.getRouteMut (r : MockRouter) (mid : ModuleId) : Option IbcModule :=
  (r.routes.find? (fun route => decide (route.1 = mid))).map (fun route => route.2)

/-- Embedding of `Router::has_route`: whether a module is registered against
the ModuleId. -/
def MockRouter.hasRoute (r : MockRouter) (mid : ModuleId) : Bool :=
  r.routes.any (fun route => decide (route.1 = mid))

/-- C3: add_route errors exactly on a ModuleId that is already registered and
otherwise succeeds with the extended builder; the built Router answers lookups
from exactly the routes registered at build time (the Router API itself has
only lookup operations, so the route set is fixed by `build`). -/
theorem routerBuilder_addRoute_spec (b : MockRouterBuilder) (mid : ModuleId) (m : IbcModule) :
    (b.build.hasRoute mid = true →
      b.addRoute mid m = Except.error "duplicate module_id")
    ∧ (b.build.hasRoute mid = false →
      b.addRoute mid m = Except.ok ⟨b.routes ++ [(mid, m)]⟩)
    ∧ b.build.routes = b.routes
    ∧ b.build.getRouteMut mid =
        (b.routes.find? (fun route => decide (route.1 = mid))).map (fun route => route.2) := by
  refine ⟨?_, ?_, rfl, rfl⟩
  · intro hdup
    have hdup2 : (b.routes.any fun route => decide (route.1 = mid)) = true := hdup
    simp [MockRouterBuilder.addRoute, hdup2]
  · intro hfresh
    have hfresh2 : (b.routes.any fun route => decide (route.1 = mid)) = false := hfresh
    simp [MockRouterBuilder.addRoute, hfresh2]

/-- A concrete token-transfer-like module used as an example registration. -/
def exampleModule : IbcModule :=
  IbcModule.mkDefault (fun _ _ _ _ _ _ ver => Except.ok (buildResultOutput ver))

/-- Witness for C3: registering the example module in an empty builder
succeeds, since no route is yet registered. -/
theorem routerBuilder_addRoute_spec_witness :
    MockRouterBuilder.addRoute ⟨[]⟩ ⟨"transfer"⟩ exampleModule =
      Except.ok ⟨[(⟨"transfer"⟩, exampleModule)]⟩ :=
  (routerBuilder_addRoute_spec ⟨[]⟩ ⟨"transfer"⟩ exampleModule).2.1 rfl

/- ============ Cross-chain reconciliation (pending_sends.rs lines 50-74) ============ -/

/-- A channel end as read from the queried chain: its own port and channel,
the counterparty port, and the counterparty channel id — absent until the
handshake completes (spec §3). -/
structure ChannelEnd where
  portId : PortId
  channelId : ChannelId
  counterpartyPortId : PortId
  counterpartyChannelId : Option ChannelId
deriving DecidableEq, Repr

/-- Modelled from the spec §3: PathIdentifiers, the read-only view derived from
a channel end that addresses both packet stores (path.rs is not under src/). -/
structure PathIdentifiers where
  portId : PortId
  channelId : ChannelId
  counterpartyPortId : PortId
  counterpartyChannelId : ChannelId
deriving DecidableEq, Repr

/-- Modelled from the spec: `PathIdentifiers::from_channel_end` returns None
exactly when the channel end lacks a counterparty channel identifier. -/
def PathIdentifiers.fromChannelEnd (ce : ChannelEnd) : Option PathIdentifiers :=
  match ce.counterpartyChannelId with
  | none => none
  | some cc => some ⟨ce.portId, ce.channelId, ce.counterpartyPortId, cc⟩

/-- The packet-store view of one chain for one channel: the sequences with a
packet commitment and the sequences with a receipt (spec §6 chain query
boundary: only the result shapes are required). -/
structure ChainView where
  commitments : List Nat
  receipts : List Nat
deriving DecidableEq, Repr

/-- A query issued against a chain store during reconciliation (spec §6(b) and
§6(c)). -/
inductive QueryOp where
  | commitmentSequences (portId : PortId) (channelId : ChannelId)
  | unreceivedSequences (portId : PortId) (channelId : ChannelId) (seqs : List Nat)
deriving DecidableEq, Repr

/-- Modelled from the spec §4.4 step 2: query a chain for the set of sequences
for which it holds a packet commitment. -/
def queryCommitmentSequences (c : ChainView) : List Nat :=
  c.commitments

/-- Modelled from the spec §4.4 step 3: the receipt-absence check — of the
given sequences, those the chain has not yet received. -/
def queryUnreceivedSequences (c : ChainView) (seqs : List Nat) : List Nat :=
  seqs.filter (fun s => !(c.receipts.contains s))

/-- Modelled from the spec §4.4: `unreceived_packets` (counterparty.rs, not
under src/): step 2 queries the counterparty chain for commitment sequences,
step 3 queries the chain for which of them are unreceived. The second component
records the packet-store queries in the order they are issued. -/
def unreceivedPackets (chain counterpartyChain : ChainView) (path : PathIdentifiers) :
    List Nat × List QueryOp :=
  let commitSeqs := queryCommitmentSequences counterpartyChain
  let unreceived := queryUnreceivedSequences chain commitSeqs
  (unreceived,
    [QueryOp.commitmentSequences path.counterpartyPortId path.counterpartyChannelId,
     QueryOp.unreceivedSequences path.portId path.channelId commitSeqs])

/-- Errors of the pending-sends command (error.rs is not under src/; the
missing-counterparty error is raised at pending_sends.rs line 69). -/
inductive CmdError where
  | missingCounterpartyChannelId (ce : ChannelEnd)
  | supervisor (msg : String)
deriving DecidableEq, Repr

/-- Embedding of `QueryPendingSendsCmd::execute` (pending_sends.rs lines
50-74): resolve PathIdentifiers from the channel end, failing with the
missing-counterparty error; otherwise run the reconciliation. Chain spawning
and configuration are replaced by the two explicit chain views; the second
component is the trace of packet-store queries issued. -/
def executePendingSends (chain counterpartyChain : ChainView) (channel : ChannelEnd) :
    Except CmdError (List Nat) × List QueryOp :=
  match PathIdentifiers.fromChannelEnd channel with
  | none => (Except.error (CmdError.missingCounterpartyChannelId channel), [])
  | some path =>
    let r := unreceivedPackets chain counterpartyChain path
    (Except.ok r.1, r.2)

/-- C5: with a resolved counterparty, reconciliation returns exactly the set
difference of the counterparty commitment sequences C and the received
sequences R of the queried chain, in ascending order when the commitment query
is ascending; on C = {1,2,3,5} and R = {1,2} it returns {3,5}. -/
theorem pendingSends_set_difference (chain counterpartyChain : ChainView)
    (ce : ChannelEnd) (cc : ChannelId) (hcc : ce.counterpartyChannelId = some cc)
    (hsorted : counterpartyChain.commitments.Sorted (· < ·)) :
    (∃ l : List Nat,
      (executePendingSends chain counterpartyChain ce).1 = Except.ok l
      ∧ (∀ s : Nat, s ∈ l ↔ (s ∈ counterpartyChain.commitments ∧ s ∉ chain.receipts))
      ∧ l.Sorted (· < ·))
    ∧ (executePendingSends ⟨[], [1, 2]⟩ ⟨[1, 2, 3, 5], []⟩ ce).1 = Except.ok [3, 5] := by
  constructor
  · refine ⟨queryUnreceivedSequences chain counterpartyChain.commitments, ?_, ?_, ?_⟩
    · simp [executePendingSends, PathIdentifiers.fromChannelEnd, hcc, unreceivedPackets,
        queryCommitmentSequences]
    · intro s
      simp [queryUnreceivedSequences, List.mem_filter]
    · exact hsorted.filter _
  · simp [executePendingSends, PathIdentifiers.fromChannelEnd, hcc, unreceivedPackets,
      queryCommitmentSequences, queryUnreceivedSequences]

/-- Witness for C5 at the spec instance: commitments {1,2,3,5}, receipts {1,2},
result {3,5}. -/
theorem pendingSends_set_difference_witness :
    (executePendingSends ⟨[], [1, 2]⟩ ⟨[1, 2, 3, 5], []⟩
        ⟨⟨"transfer"⟩, ⟨"channel-1"⟩, ⟨"transfer"⟩, some ⟨"channel-0"⟩⟩).1 =
      Except.ok [3, 5] :=
  (pendingSends_set_difference ⟨[], [1, 2]⟩ ⟨[1, 2, 3, 5], []⟩
      ⟨⟨"transfer"⟩, ⟨"channel-1"⟩, ⟨"transfer"⟩, some ⟨"channel-0"⟩⟩ ⟨"channel-0"⟩
      rfl (by decide)).2

/-- C6: against a channel end lacking a counterparty channel id, the command
fails with the missing-counterparty-channel error and the trace of issued
packet-store queries is empty: it fails before any query is issued against
either chain. -/
theorem pendingSends_missing_counterparty (chain counterpartyChain : ChainView)
    (ce : ChannelEnd) (h : ce.counterpartyChannelId = none) :
    executePendingSends chain counterpartyChain ce =
      (Except.error (CmdError.missingCounterpartyChannelId ce), []) := by
  simp [executePendingSends, PathIdentifiers.fromChannelEnd, h]

/-- Witness for C6 at a concrete channel end with no counterparty channel. -/
theorem pendingSends_missing_counterparty_witness :
    executePendingSends ⟨[7], []⟩ ⟨[1], []⟩
        ⟨⟨"transfer"⟩, ⟨"channel-1"⟩, ⟨"transfer"⟩, none⟩ =
      (Except.error
        (CmdError.missingCounterpartyChannelId
          ⟨⟨"transfer"⟩, ⟨"channel-1"⟩, ⟨"transfer"⟩, none⟩), []) :=
  pendingSends_missing_counterparty ⟨[7], []⟩ ⟨[1], []⟩
    ⟨⟨"transfer"⟩, ⟨"channel-1"⟩, ⟨"transfer"⟩, none⟩ rfl

/- ============ CLI flag parsing and run (pending_sends.rs lines 19-48, 77-84) ============ -/

/-- A chain identifier (`ChainId::from_string` accepts any string). -/
structure ChainId where
  val : String
deriving DecidableEq, Repr

/-- The pending-sends command value: the three required flags (pending_sends.rs
lines 19-48). -/
structure QueryPendingSendsCmd where
  chainId : ChainId
  portId : PortId
  channelId : ChannelId
deriving DecidableEq, Repr

/-- Modelled from the spec: command-line parsing of the flags declared by the
clap attributes at pending_sends.rs lines 19-48 (the parser itself is the
external clap library). The accumulators hold flag values seen so far;
`--chain`, `--port` and `--channel` each take one value and are required,
`--chan` is a visible alias of `--channel`; a repeated flag, a flag without a
value, an unknown token, a missing required flag, or an invalid identifier
value is a parse failure. -/
def parseTokens : List String → Option String → Option String → Option String →
    Option QueryPendingSendsCmd
  | [], some c, some p, some ch =>
    match PortId.parse p, ChannelId.parse ch with
    | Except.ok port, Except.ok chan => some ⟨⟨c⟩, port, chan⟩
    | _, _ => none
  | [], _, _, _ => none
  | _ :: [], _, _, _ => none
  | tok :: v :: rest, c, p, ch =>
    if tok = "--chain" then
      match c with
      | none => parseTokens rest (some v) p ch
      | some _ => none
    else if tok = "--port" then
      match p with
      | none => parseTokens rest c (some v) ch
      | some _ => none
    else if tok = "--channel" then
      match ch with
      | none => parseTokens rest c p (some v)
      | some _ => none
    else if tok = "--chan" then
      match ch with
      | none => parseTokens rest c p (some v)
      | some _ => none
    else none

/-- Entry point of argument parsing: the first argument is the binary name
(as in `Parser::parse_from`). -/
def QueryPendingSendsCmd.parseFrom (argv : List String) : Option QueryPendingSendsCmd :=
  match argv with
  | [] => none
  | _ :: args => parseTokens args none none none

/-- Modelled from the spec: the CLI output channel (`Output` of conclude.rs is
not under src/) — success prints the value and exits zero, failure prints a
formatted error and exits non-zero. -/
inductive CmdOutput where
  | success (seqs : List Nat)
  | failure (msg : String)
deriving DecidableEq, Repr

/-- Exit status carried by an output. -/
def CmdOutput.exitCode : CmdOutput → Nat
  | CmdOutput.success _ => 0
  | CmdOutput.failure _ => 1

/-- Modelled from the spec: formatting of a command error into the printed
message (`format!` over the error Display). -/
def CmdError.format : CmdError → String
  | CmdError.missingCounterpartyChannelId _ => "missing counterparty channel id"
  | CmdError.supervisor m => m

/-- Embedding of `impl Runnable for QueryPendingSendsCmd` (pending_sends.rs
lines 77-84): a successful execute prints the sequence list, a failed one
prints the formatted error. -/
def QueryPendingSendsCmd.run (res : Except CmdError (List Nat)) : CmdOutput :=
  match res with
  | Except.ok seqs => CmdOutput.success seqs
  | Except.error e => CmdOutput.failure (CmdError.format e)

/-- Parsing succeeds only if each required flag was seen already or occurs in
the remaining argument list. -/
theorem parseTokens_requires_flags :
    ∀ (n : Nat) (args : List String) (c p ch : Option String),
      args.length ≤ n → parseTokens args c p ch ≠ none →
        (c.isSome = true ∨ "--chain" ∈ args)
        ∧ (p.isSome = true ∨ "--port" ∈ args)
        ∧ (ch.isSome = true ∨ "--channel" ∈ args ∨ "--chan" ∈ args) := by
  intro n
  induction n with
  | zero =>
    intro args c p ch hlen hne
    have hargs : args = [] := List.eq_nil_of_length_eq_zero (Nat.le_zero.mp hlen)
    subst hargs
    cases c with
    | none => exact absurd rfl hne
    | some cv =>
      cases p with
      | none => exact absurd rfl hne
      | some pv =>
        cases ch with
        | none => exact absurd rfl hne
        | some chv => exact ⟨Or.inl rfl, Or.inl rfl, Or.inl rfl⟩
  | succ m ih =>
    intro args c p ch hlen hne
    cases args with
    | nil =>
      cases c with
      | none => exact absurd rfl hne
      | some cv =>
        cases p with
        | none => exact absurd rfl hne
        | some pv =>
          cases ch with
          | none => exact absurd rfl hne
          | some chv => exact ⟨Or.inl rfl, Or.inl rfl, Or.inl rfl⟩
    | cons tok rest =>
      cases rest with
      | nil => exact absurd rfl hne
      | cons v rest2 =>
        have hlen2 : rest2.length ≤ m := by
          simp only [List.length_cons] at hlen
          omega
        simp only [parseTokens] at hne
        by_cases h1 : tok = "--chain"
        · rw [if_pos h1] at hne
          cases c with
          | some cv => exact absurd rfl hne
          | none =>
            obtain ⟨_, hp, hch⟩ := ih rest2 (some v) p ch hlen2 hne
            subst h1
            refine ⟨Or.inr (List.mem_cons_self _ _), ?_, ?_⟩
            · rcases hp with hp | hp
              · exact Or.inl hp
              · exact Or.inr (List.mem_cons_of_mem _ (List.mem_cons_of_mem _ hp))
            · rcases hch with hch | hch | hch
              · exact Or.inl hch
              · exact Or.inr (Or.inl (List.mem_cons_of_mem _ (List.mem_cons_of_mem _ hch)))
              · exact Or.inr (Or.inr (List.mem_cons_of_mem _ (List.mem_cons_of_mem _ hch)))
        · rw [if_neg h1] at hne
          by_cases h2 : tok = "--port"
          · rw [if_pos h2] at hne
            cases p with
            | some pv => exact absurd rfl hne
            | none =>
              obtain ⟨hc, _, hch⟩ := ih rest2 c (some v) ch hlen2 hne
              subst h2
              refine ⟨?_, Or.inr (List.mem_cons_self _ _), ?_⟩
              · rcases hc with hc | hc
                · exact Or.inl hc
                · exact Or.inr (List.mem_cons_of_mem _ (List.mem_cons_of_mem _ hc))
              · rcases hch with hch | hch | hch
                · exact Or.inl hch
                · exact Or.inr (Or.inl (List.mem_cons_of_mem _ (List.mem_cons_of_mem _ hch)))
                · exact Or.inr (Or.inr (List.mem_cons_of_mem _ (List.mem_cons_of_mem _ hch)))
          · rw [if_neg h2] at hne
            by_cases h3 : tok = "--channel"
            · rw [if_pos h3] at hne
              cases ch with
              | some chv => exact absurd rfl hne
              | none =>
                obtain ⟨hc, hp, _⟩ := ih rest2 c p (some v) hlen2 hne
                subst h3
                refine ⟨?_, ?_, Or.inr (Or.inl (List.mem_cons_self _ _))⟩
                · rcases hc with hc | hc
                  · exact Or.inl hc
                  · exact Or.inr (List.mem_cons_of_mem _ (List.mem_cons_of_mem _ hc))
                · rcases hp with hp | hp
                  · exact Or.inl hp
                  · exact Or.inr (List.mem_cons_of_mem _ (List.mem_cons_of_mem _ hp))
            · rw [if_neg h3] at hne
              by_cases h4 : tok = "--chan"
              · rw [if_pos h4] at hne
                cases ch with
                | some chv => exact absurd rfl hne
                | none =>
                  obtain ⟨hc, hp, _⟩ := ih rest2 c p (some v) hlen2 hne
                  subst h4
                  refine ⟨?_, ?_, Or.inr (Or.inr (List.mem_cons_self _ _))⟩
                  · rcases hc with hc | hc
                    · exact Or.inl hc
                    · exact Or.inr (List.mem_cons_of_mem _ (List.mem_cons_of_mem _ hc))
                  · rcases hp with hp | hp
                    · exact Or.inl hp
                    · exact Or.inr (List.mem_cons_of_mem _ (List.mem_cons_of_mem _ hp))
              · rw [if_neg h4] at hne
                exact absurd rfl hne

/-- C8: parsing with the --chan alias yields the same command value as parsing
with --channel; parsing fails whenever --chain, --port, or the channel flag
(either spelling) is absent; on success run prints the sequence list with exit
code zero, on failure a formatted error with non-zero exit code. -/
theorem pendingSendsCmd_parse_spec (c p ch : String) (args : List String) :
    (QueryPendingSendsCmd.parseFrom ["test", "--chain", c, "--port", p, "--chan", ch] =
      QueryPendingSendsCmd.parseFrom ["test", "--chain", c, "--port", p, "--channel", ch])
    ∧ ("--chain" ∉ args → QueryPendingSendsCmd.parseFrom ("test" :: args) = none)
    ∧ ("--port" ∉ args → QueryPendingSendsCmd.parseFrom ("test" :: args) = none)
    ∧ ("--channel" ∉ args → "--chan" ∉ args →
        QueryPendingSendsCmd.parseFrom ("test" :: args) = none)
    ∧ (∀ seqs : List Nat,
        QueryPendingSendsCmd.run (Except.ok seqs) = CmdOutput.success seqs
        ∧ (QueryPendingSendsCmd.run (Except.ok seqs)).exitCode = 0)
    ∧ (∀ e : CmdError, (QueryPendingSendsCmd.run (Except.error e)).exitCode ≠ 0) := by
  refine ⟨rfl, ?_, ?_, ?_, fun seqs => ⟨rfl, rfl⟩, fun e => by simp [QueryPendingSendsCmd.run, CmdOutput.exitCode]⟩
  · intro hmem
    by_contra hne
    have h := (parseTokens_requires_flags args.length args none none none le_rfl hne).1
    simp only [Option.isSome_none, Bool.false_eq_true, false_or] at h
    exact hmem h
  · intro hmem
    by_contra hne
    have h := (parseTokens_requires_flags args.length args none none none le_rfl hne).2.1
    simp only [Option.isSome_none, Bool.false_eq_true, false_or] at h
    exact hmem h
  · intro hmem1 hmem2
    by_contra hne
    have h := (parseTokens_requires_flags args.length args none none none le_rfl hne).2.2
    simp only [Option.isSome_none, Bool.false_eq_true, false_or] at h
    rcases h with h | h
    · exact hmem1 h
    · exact hmem2 h

/-- Witness for C8: both spellings parse the concrete argument list from the
source tests, and omitting the channel flag fails. -/
theorem pendingSendsCmd_parse_spec_witness :
    (QueryPendingSendsCmd.parseFrom
        ["test", "--chain", "chain_id", "--port", "port_id", "--chan", "channel-07"] =
      QueryPendingSendsCmd.parseFrom
        ["test", "--chain", "chain_id", "--port", "port_id", "--channel", "channel-07"])
    ∧ QueryPendingSendsCmd.parseFrom
        ("test" :: ["--chain", "chain_id", "--port", "port_id"]) = none :=
  ⟨(pendingSendsCmd_parse_spec "chain_id" "port_id" "channel-07" []).1,
    (pendingSendsCmd_parse_spec "chain_id" "port_id" "channel-07"
        ["--chain", "chain_id", "--port", "port_id"]).2.2.2.1 (by decide) (by decide)⟩
